import Mathlib

/-!
Verification of the CukaiPal tax engine
(`src/engine/taxEngine.ts`, `src/engine/yearConfigs.ts`, and the tax
pipeline of `src/screens/DashboardScreen.tsx`).

Currency amounts and tax rates are modelled as rationals (`ℚ`); the
source works on JavaScript numbers and the claims are about the exact
arithmetic of the algorithms (clamping, summation, bracket walks), all
of which are expressible over `ℚ`.  `Infinity` (the upper bound of the
last tax bracket) is modelled as `none` in an `Option ℚ`.  String
fields that are display-only (colors, icons, advice/detail texts) are
omitted from the embedded records; every field that any computation
reads is kept.
-/

namespace CukaiPal

/-- `TaxBracket` from `types.ts`: `max = none` models `Infinity`. -/
structure TaxBracket where
  max : Option ℚ
  rate : ℚ
deriving DecidableEq

/-- `TAX_BRACKETS['post_2023']` from `taxEngine.ts`.  Decimal rate
literals are written as exact fractions, e.g. `0.01 = 1/100`. -/
def TAX_BRACKETS_post_2023 : List TaxBracket :=
  [⟨some 5000, 0⟩, ⟨some 20000, 1/100⟩, ⟨some 35000, 3/100⟩,
   ⟨some 50000, 6/100⟩, ⟨some 70000, 11/100⟩, ⟨some 100000, 19/100⟩,
   ⟨some 400000, 25/100⟩, ⟨some 600000, 26/100⟩, ⟨some 2000000, 28/100⟩,
   ⟨none, 3/10⟩]

/-- `TAX_BRACKETS['pre_2023']` from `taxEngine.ts`. -/
def TAX_BRACKETS_pre_2023 : List TaxBracket :=
  [⟨some 5000, 0⟩, ⟨some 20000, 1/100⟩, ⟨some 35000, 3/100⟩,
   ⟨some 50000, 8/100⟩, ⟨some 70000, 13/100⟩, ⟨some 100000, 21/100⟩,
   ⟨some 250000, 24/100⟩, ⟨some 400000, 245/1000⟩, ⟨some 600000, 25/100⟩,
   ⟨some 1000000, 26/100⟩, ⟨none, 28/100⟩]

/-- The bracket schedule selected by `calculateProgressiveTax`:
`year >= 2023 ? TAX_BRACKETS['post_2023'] : TAX_BRACKETS['pre_2023']`. -/
def bracketsFor (year : ℤ) : List TaxBracket :=
  if 2023 ≤ year then TAX_BRACKETS_post_2023 else TAX_BRACKETS_pre_2023

/-- The bracket walk of `calculateProgressiveTax`: starting from
`previousMax`, each bracket with `chargeableIncome > previousMax`
contributes `(min(chargeableIncome, b.max) - previousMax) * b.rate`,
and the walk stops at the first bracket with
`chargeableIncome <= previousMax`.  A `none` (Infinity) bound
contributes `(chargeableIncome - previousMax) * b.rate`; in the source
`previousMax` then becomes `Infinity` so every later iteration breaks,
which the embedding renders by stopping there. -/
def bracketLoop (chargeableIncome : ℚ) : ℚ → List TaxBracket → ℚ
  | _, [] => 0
  | previousMax, b :: rest =>
    if previousMax < chargeableIncome then
      match b.max with
      | some m =>
          (min chargeableIncome m - previousMax) * b.rate +
            bracketLoop chargeableIncome m rest
      | none => (chargeableIncome - previousMax) * b.rate
    else 0

/-- `calculateProgressiveTax` from `taxEngine.ts`. -/
def calculateProgressiveTax (chargeableIncome : ℚ) (year : ℤ) : ℚ :=
  if chargeableIncome ≤ 5000 then 0
  else bracketLoop chargeableIncome 0 (bracketsFor year)

/-- The reference marginal-bracket sum named by the spec: over the
ordered schedule, `Σ rate_i * max(0, min(income, bound_i) - bound_(i-1))`
with `bound_0 = 0`; a `none` bound stands for `Infinity`, where
`min income Infinity = income`. -/
def refBracketSum (chargeableIncome : ℚ) : ℚ → List TaxBracket → ℚ
  | _, [] => 0
  | prevBound, b :: rest =>
    match b.max with
    | some m =>
        max 0 (min chargeableIncome m - prevBound) * b.rate +
          refBracketSum chargeableIncome m rest
    | none => max 0 (chargeableIncome - prevBound) * b.rate

/-- Sortedness of a bracket schedule relative to a starting bound:
every finite upper bound is at least the previous bound. -/
def bracketChain : ℚ → List TaxBracket → Bool
  | _, [] => true
  | prev, b :: rest =>
    match b.max with
    | some m => decide (prev ≤ m) && bracketChain m rest
    | none => true

/-- All rates of a schedule are non-negative. -/
def ratesNonneg (bs : List TaxBracket) : Bool :=
  bs.all fun b => decide (0 ≤ b.rate)

/-- The marginal rate of the bracket containing `z` (the first bracket
whose upper bound is at least `z`). -/
def rateAt (z : ℚ) : List TaxBracket → ℚ
  | [] => 0
  | b :: rest =>
    match b.max with
    | none => b.rate
    | some m => if z ≤ m then b.rate else rateAt z rest

theorem refBracketSum_eq_zero {income : ℚ} :
    ∀ {bs : List TaxBracket} {prev : ℚ},
      bracketChain prev bs = true → income ≤ prev →
      refBracketSum income prev bs = 0 := by
  intro bs
  induction bs with
  | nil => intro prev _ _; rfl
  | cons b rest ih =>
    intro prev hc h
    cases hm : b.max with
    | some m =>
      simp only [bracketChain, hm, Bool.and_eq_true, decide_eq_true_eq] at hc
      have h1 : min income m - prev ≤ 0 := by
        have : min income m ≤ income := min_le_left _ _
        linarith
      simp only [refBracketSum, hm]
      rw [max_eq_left h1, zero_mul, zero_add]
      exact ih hc.2 (le_trans h hc.1)
    | none =>
      simp only [refBracketSum, hm]
      have h1 : income - prev ≤ 0 := by linarith
      rw [max_eq_left h1, zero_mul]

theorem bracketLoop_eq_refBracketSum {income : ℚ} {bs : List TaxBracket} :
    ∀ {prev : ℚ}, bracketChain prev bs = true →
      bracketLoop income prev bs = refBracketSum income prev bs := by
  induction bs with
  | nil => intro prev _; rfl
  | cons b rest ih =>
    intro prev hc
    by_cases h : prev < income
    · cases hm : b.max with
      | some m =>
        simp only [bracketChain, hm, Bool.and_eq_true, decide_eq_true_eq] at hc
        have hmin : prev ≤ min income m := le_min (le_of_lt h) hc.1
        simp only [bracketLoop, refBracketSum, hm, if_pos h]
        rw [max_eq_right (by linarith), ih hc.2]
      | none =>
        simp only [bracketLoop, refBracketSum, hm, if_pos h]
        rw [max_eq_right (by linarith)]
    · simp only [bracketLoop, if_neg h]
      rw [refBracketSum_eq_zero hc (not_lt.mp h)]

theorem bracketChain_post : bracketChain 0 TAX_BRACKETS_post_2023 = true := by
  decide

theorem bracketChain_pre : bracketChain 0 TAX_BRACKETS_pre_2023 = true := by
  decide

theorem bracketChain_bracketsFor (year : ℤ) :
    bracketChain 0 (bracketsFor year) = true := by
  unfold bracketsFor
  split
  · exact bracketChain_post
  · exact bracketChain_pre

theorem ratesNonneg_post : ratesNonneg TAX_BRACKETS_post_2023 = true := by
  simp only [ratesNonneg, TAX_BRACKETS_post_2023, List.all_cons, List.all_nil,
    Bool.and_eq_true, decide_eq_true_eq]
  norm_num

theorem ratesNonneg_pre : ratesNonneg TAX_BRACKETS_pre_2023 = true := by
  simp only [ratesNonneg, TAX_BRACKETS_pre_2023, List.all_cons, List.all_nil,
    Bool.and_eq_true, decide_eq_true_eq]
  norm_num

theorem ratesNonneg_bracketsFor (year : ℤ) :
    ratesNonneg (bracketsFor year) = true := by
  unfold bracketsFor
  split
  · exact ratesNonneg_post
  · exact ratesNonneg_pre

/-- On both configured schedules the first bracket reaches 5000 at rate
0, so the reference sum of an income at most 5000 is 0. -/
theorem refBracketSum_le_5000 {income : ℚ} (year : ℤ) (h : income ≤ 5000) :
    refBracketSum income 0 (bracketsFor year) = 0 := by
  have hpost :
      refBracketSum income 0 TAX_BRACKETS_post_2023 = 0 := by
    show max 0 (min income 5000 - 0) * 0 +
        refBracketSum income 5000 _ = 0
    rw [mul_zero, zero_add]
    exact refBracketSum_eq_zero (by decide) h
  have hpre :
      refBracketSum income 0 TAX_BRACKETS_pre_2023 = 0 := by
    show max 0 (min income 5000 - 0) * 0 +
        refBracketSum income 5000 _ = 0
    rw [mul_zero, zero_add]
    exact refBracketSum_eq_zero (by decide) h
  unfold bracketsFor
  split
  · exact hpost
  · exact hpre

/-- `calculateProgressiveTax` computes exactly the reference
marginal-bracket sum over the selected year's schedule. -/
theorem calculateProgressiveTax_eq_refBracketSum
    (income : ℚ) (year : ℤ) :
    calculateProgressiveTax income year
      = refBracketSum income 0 (bracketsFor year) := by
  unfold calculateProgressiveTax
  by_cases h : income ≤ 5000
  · rw [if_pos h, refBracketSum_le_5000 year h]
  · rw [if_neg h, bracketLoop_eq_refBracketSum (bracketChain_bracketsFor year)]

theorem refBracketSum_mono {x y : ℚ} (hxy : x ≤ y) :
    ∀ {bs : List TaxBracket}, ratesNonneg bs = true →
      ∀ {prev : ℚ}, refBracketSum x prev bs ≤ refBracketSum y prev bs := by
  intro bs
  induction bs with
  | nil => intro _ prev; exact le_refl _
  | cons b rest ih =>
    intro hr prev
    simp only [ratesNonneg, List.all_cons, Bool.and_eq_true,
      decide_eq_true_eq] at hr
    cases hm : b.max with
    | some m =>
      simp only [refBracketSum, hm]
      have hterm : max 0 (min x m - prev) ≤ max 0 (min y m - prev) := by
        apply max_le_max (le_refl 0)
        have : min x m ≤ min y m := min_le_min hxy (le_refl m)
        linarith
      exact add_le_add (mul_le_mul_of_nonneg_right hterm hr.1) (ih hr.2)
    | none =>
      simp only [refBracketSum, hm]
      have hterm : max 0 (x - prev) ≤ max 0 (y - prev) := by
        apply max_le_max (le_refl 0); linarith
      exact mul_le_mul_of_nonneg_right hterm hr.1

/-- Piecewise linearity of the reference sum: when no finite bracket
bound separates `x` from `y`, the difference is the containing
bracket's rate times `y - x`. -/
theorem refBracketSum_linear {x y : ℚ} {bs : List TaxBracket} :
    ∀ {prev : ℚ}, bracketChain prev bs = true → prev ≤ x → x ≤ y →
      (∀ b ∈ bs, ∀ m, b.max = some m → m ≤ x ∨ y ≤ m) →
      refBracketSum y prev bs - refBracketSum x prev bs
        = rateAt y bs * (y - x) := by
  induction bs with
  | nil => intro prev _ _ _ _; simp [refBracketSum, rateAt]
  | cons b rest ih =>
    intro prev hc hpx hxy hsep
    cases hm : b.max with
    | none =>
      simp only [refBracketSum, rateAt, hm]
      rw [max_eq_right (by linarith), max_eq_right (by linarith)]
      ring
    | some m =>
      simp only [bracketChain, hm, Bool.and_eq_true, decide_eq_true_eq] at hc
      rcases hsep b (List.mem_cons_self b rest) m hm with hmx | hym
      · by_cases hy : y ≤ m
        · -- degenerate: m ≤ x ≤ y ≤ m forces x = y = m
          have hxm : x = m := le_antisymm (le_trans hxy hy) hmx
          have hym2 : y = m := le_antisymm hy (le_trans hmx hxy)
          simp only [refBracketSum, rateAt, hm, if_pos hy]
          rw [hxm, hym2]; ring
        · simp only [refBracketSum, rateAt, hm, if_neg hy]
          have hminx : min x m = m := min_eq_right hmx
          have hminy : min y m = m := min_eq_right (le_trans hmx hxy)
          rw [hminx, hminy]
          have hrec := @ih m hc.2 hmx hxy
            (fun b2 hb2 m2 hm2 => hsep b2 (List.mem_cons_of_mem b hb2) m2 hm2)
          linarith [hrec]
      · -- y ≤ m : both incomes fall inside this bracket
        have hy : y ≤ m := hym
        simp only [refBracketSum, rateAt, hm, if_pos hy]
        have hminx : min x m = x := min_eq_left (le_trans hxy hym)
        have hminy : min y m = y := min_eq_left hym
        rw [hminx, hminy, max_eq_right (by linarith), max_eq_right (by linarith)]
        rw [refBracketSum_eq_zero hc.2 hym,
          refBracketSum_eq_zero hc.2 (le_trans hxy hym)]
        ring

/-- C2: for every year and chargeable income,
`calculateProgressiveTax` equals the marginal-bracket reference sum
over the year's ordered schedule
(`Σ rate_i * max(0, min(income, bound_i) - bound_(i-1))`, `bound_0 = 0`);
in particular the tax of incomes 0, -100 and 5000 is 0, and income
5000.01 is taxed positively (a boundary income is taxed entirely at the
lower bracket's rate). -/
theorem C2_progressiveTax_matches_reference (year : ℤ) (chargeableIncome : ℚ) :
    calculateProgressiveTax chargeableIncome year
        = refBracketSum chargeableIncome 0 (bracketsFor year)
      ∧ calculateProgressiveTax 0 year = 0
      ∧ calculateProgressiveTax (-100) year = 0
      ∧ calculateProgressiveTax 5000 year = 0
      ∧ 0 < calculateProgressiveTax (500001/100) year := by
  refine ⟨calculateProgressiveTax_eq_refBracketSum _ year, ?_, ?_, ?_, ?_⟩
  · rw [calculateProgressiveTax, if_pos (by norm_num : (0:ℚ) ≤ 5000)]
  · rw [calculateProgressiveTax, if_pos (by norm_num : (-100:ℚ) ≤ 5000)]
  · rw [calculateProgressiveTax, if_pos (by norm_num : (5000:ℚ) ≤ 5000)]
  · rw [calculateProgressiveTax,
      if_neg (by norm_num : ¬ ((500001/100 : ℚ) ≤ 5000))]
    unfold bracketsFor
    by_cases h : 2023 ≤ year
    · rw [if_pos h]
      norm_num [bracketLoop, TAX_BRACKETS_post_2023, min_def]
    · rw [if_neg h]
      norm_num [bracketLoop, TAX_BRACKETS_pre_2023, min_def]

/-- C9: for every year `calculateProgressiveTax` is non-decreasing in
income, and between consecutive bracket boundaries (no finite bound
strictly separating `x` from `y`, with `0 ≤ x`) it is linear with
slope the containing bracket's rate. -/
theorem C9_progressiveTax_monotone_piecewise_linear
    (year : ℤ) (x y : ℚ) (hxy : x ≤ y) :
    calculateProgressiveTax x year ≤ calculateProgressiveTax y year
      ∧ (0 ≤ x →
          (∀ b ∈ bracketsFor year, ∀ m, b.max = some m → m ≤ x ∨ y ≤ m) →
          calculateProgressiveTax y year - calculateProgressiveTax x year
            = rateAt y (bracketsFor year) * (y - x)) := by
  constructor
  · rw [calculateProgressiveTax_eq_refBracketSum x year,
      calculateProgressiveTax_eq_refBracketSum y year]
    exact refBracketSum_mono hxy (ratesNonneg_bracketsFor year)
  · intro hx hsep
    rw [calculateProgressiveTax_eq_refBracketSum x year,
      calculateProgressiveTax_eq_refBracketSum y year]
    exact refBracketSum_linear (bracketChain_bracketsFor year) hx hxy hsep

/-- Witness for C9 at year 2025, incomes 60000 and 65000 (both inside
the 50000–70000 bracket, rate 0.11). -/
theorem C9_progressiveTax_monotone_piecewise_linear_witness :
    calculateProgressiveTax 60000 2025 ≤ calculateProgressiveTax 65000 2025
      ∧ calculateProgressiveTax 65000 2025 - calculateProgressiveTax 60000 2025
          = rateAt 65000 (bracketsFor 2025) * (65000 - 60000) :=
  ⟨(C9_progressiveTax_monotone_piecewise_linear 2025 60000 65000
      (by norm_num)).1,
   (C9_progressiveTax_monotone_piecewise_linear 2025 60000 65000
      (by norm_num)).2 (by norm_num)
     (by
      intro b hb m hm
      unfold bracketsFor at hb
      rw [if_pos (by norm_num : (2023:ℤ) ≤ 2025)] at hb
      simp only [TAX_BRACKETS_post_2023, List.mem_cons, List.not_mem_nil,
        or_false] at hb
      rcases hb with h | h | h | h | h | h | h | h | h | h <;> subst h <;>
        simp only [Option.some.injEq, reduceCtorEq] at hm <;> subst hm <;>
        norm_num)⟩

/-! ### Category claim aggregation (`computeCategoryData`) -/

/-- `DeductibleItem` from `types.ts` (display-only `label` kept,
`subLimit` optional as in the source). -/
structure DeductibleItem where
  id : String
  label : String
  parent : String
  subLimit : Option ℚ := none
deriving DecidableEq

/-- `SharedPool` from `types.ts` (the mutable `used` scratch field of
the source is threaded explicitly by the functions below). -/
structure SharedPool where
  limit : ℚ
  items : List String
deriving DecidableEq

/-- `CategoryConfig` from `types.ts`; display-only fields (`color`,
`icon`, `advice`, `details`) are omitted.  The optional `isAutomatic`
flag is a `Bool` with `undefined ≡ false`. -/
structure CategoryConfig where
  id : String
  title : String
  limit : ℚ
  items : List DeductibleItem
  sharedPools : Option (List SharedPool) := none
  isAutomatic : Bool := false
deriving DecidableEq

/-- `CategoryStats` from `types.ts`; optional `isAutomatic` modelled as
`Bool` with `undefined ≡ false`. -/
structure CategoryStats where
  claimable : ℚ
  remaining : ℚ
  percent : ℚ
  totalSpent : ℚ
  isAutomatic : Bool := false
deriving DecidableEq

/-- `Receipt` from `types.ts`.  `status` is the status string
(`"pending" | "analyzing" | "review" | "verified"`); `dateYear` models
`new Date(r.date).getFullYear()`, the only use the engine makes of the
`date` string. -/
structure Receipt where
  id : String
  status : String
  amount : ℚ
  description : String
  category : String
  subCategory : String
  dateYear : ℤ
deriving DecidableEq

/-- Sum of `Math.max(0, amt)` over the verified receipts of this
category whose `subCategory` is `itemId` — the entry
`itemTotals[itemId]` built by the first loop of `computeCategoryData`
(a missing entry reads as 0, matching `itemTotals[item.id] || 0`). -/
def itemTotal (cfg : CategoryConfig) (receipts : List Receipt)
    (itemId : String) : ℚ :=
  (receipts.filter fun r =>
      r.category == cfg.id && r.status == "verified" &&
        r.subCategory == itemId).foldl
    (fun acc r => acc + max 0 r.amount) 0

/-- The per-item sub-limit clamp
`if (item.subLimit) amount = Math.min(amount, item.subLimit)`.
JavaScript truthiness makes a `subLimit` of 0 behave as absent. -/
def clampSub (item : DeductibleItem) (amount : ℚ) : ℚ :=
  match item.subLimit with
  | none => amount
  | some s => if s = 0 then amount else min amount s

/-- `sharedPoolUsage.findIndex((p) => p.items.includes(item.id))`. -/
def poolIndexOf : List SharedPool → String → Option ℕ
  | [], _ => none
  | p :: ps, itemId =>
    if p.items.contains itemId then some 0
    else (poolIndexOf ps itemId).map (· + 1)

/-- The `used` accumulator of pool number `j`: the clamped totals of
the items of the category whose first matching pool is `j`. -/
def poolUsed (cfg : CategoryConfig) (receipts : List Receipt)
    (pools : List SharedPool) (j : ℕ) : ℚ :=
  ((cfg.items.filter fun it => poolIndexOf pools it.id == some j).map
    fun it => clampSub it (itemTotal cfg receipts it.id)).sum

/-- The part of `validClaim` accumulated directly in the item loop:
clamped totals of items that belong to no shared pool. -/
def unpooledClaim (cfg : CategoryConfig) (receipts : List Receipt)
    (pools : List SharedPool) : ℚ :=
  ((cfg.items.filter fun it => poolIndexOf pools it.id == none).map
    fun it => clampSub it (itemTotal cfg receipts it.id)).sum

/-- The final pool loop `validClaim += Math.min(pool.used, pool.limit)`,
walking the pools by position. -/
def pooledClaimAux (cfg : CategoryConfig) (receipts : List Receipt)
    (pools : List SharedPool) : ℕ → List SharedPool → ℚ
  | _, [] => 0
  | j, p :: ps =>
    min (poolUsed cfg receipts pools j) p.limit +
      pooledClaimAux cfg receipts pools (j + 1) ps

def pooledClaim (cfg : CategoryConfig) (receipts : List Receipt)
    (pools : List SharedPool) : ℚ :=
  pooledClaimAux cfg receipts pools 0 pools

/-- `computeCategoryData` from `taxEngine.ts`.  The item loop's two
accumulators are rendered as the filtered sums `unpooledClaim` /
`poolUsed`, and the pool loop as `pooledClaim`. -/
def computeCategoryData (cfg : CategoryConfig) (receipts : List Receipt) :
    CategoryStats :=
  if cfg.isAutomatic then
    { claimable := cfg.limit, remaining := 0, percent := 100,
      totalSpent := cfg.limit, isAutomatic := true }
  else
    let pools := cfg.sharedPools.getD []
    let validClaim :=
      unpooledClaim cfg receipts pools + pooledClaim cfg receipts pools
    let totalSpent := (cfg.items.map fun it => itemTotal cfg receipts it.id).sum
    let finalClaimable := min validClaim cfg.limit
    { claimable := finalClaimable,
      remaining := cfg.limit - finalClaimable,
      percent := min (finalClaimable / cfg.limit * 100) 100,
      totalSpent := totalSpent,
      isAutomatic := false }

/-- The claimable amount described by the spec (claim C1), written from
the spec's words: per-item totals clamped to their `subLimit` when one
exists (`clampSub`; "when one exists" is read with the data model's
JavaScript truthiness, under which a `subLimit` of 0 counts as absent);
each shared pool contributes its member items' clamped totals summed
and clamped to the pool limit; unpooled items contribute their clamped
totals directly; the result is capped by the category limit. -/
def specClaimable (cfg : CategoryConfig) (receipts : List Receipt) : ℚ :=
  let pools := cfg.sharedPools.getD []
  let clamped := fun it : DeductibleItem =>
    clampSub it (itemTotal cfg receipts it.id)
  let pooled := (pools.map fun p =>
    min ((cfg.items.filter fun it => p.items.contains it.id).map clamped).sum
      p.limit).sum
  let unpooled :=
    ((cfg.items.filter fun it =>
        !(pools.any fun p => p.items.contains it.id)).map clamped).sum
  min cfg.limit (pooled + unpooled)

/-- Appending one receipt adds its (guarded, clamped) contribution to
the per-item total. -/
theorem itemTotal_append_single (cfg : CategoryConfig) (receipts : List Receipt)
    (r : Receipt) (itemId : String) :
    itemTotal cfg (receipts ++ [r]) itemId
      = itemTotal cfg receipts itemId +
        (if r.category == cfg.id && r.status == "verified" &&
            r.subCategory == itemId then max 0 r.amount else 0) := by
  unfold itemTotal
  rw [List.filter_append, List.foldl_append]
  split
  · rename_i h
    rw [List.filter_cons, if_pos h]
    simp
  · rename_i h
    rw [List.filter_cons, if_neg h]
    simp

/-- `computeCategoryData` reads receipts only through the per-item
totals of the configured items. -/
theorem computeCategoryData_congr (cfg : CategoryConfig)
    (receipts1 receipts2 : List Receipt)
    (hit : ∀ it ∈ cfg.items,
      itemTotal cfg receipts1 it.id = itemTotal cfg receipts2 it.id) :
    computeCategoryData cfg receipts1 = computeCategoryData cfg receipts2 := by
  have hclamped : ∀ (q : DeductibleItem → Bool),
      (cfg.items.filter q).map (fun it => clampSub it (itemTotal cfg receipts1 it.id))
        = (cfg.items.filter q).map (fun it => clampSub it (itemTotal cfg receipts2 it.id)) := by
    intro q
    apply List.map_congr_left
    intro it hmem
    rw [hit it (List.mem_of_mem_filter hmem)]
  have hpoolUsed : ∀ (pools : List SharedPool) (j : ℕ),
      poolUsed cfg receipts1 pools j = poolUsed cfg receipts2 pools j := by
    intro pools j
    unfold poolUsed
    rw [hclamped]
  have hpooledAux : ∀ (pools ps : List SharedPool) (j : ℕ),
      pooledClaimAux cfg receipts1 pools j ps
        = pooledClaimAux cfg receipts2 pools j ps := by
    intro pools ps
    induction ps with
    | nil => intro j; rfl
    | cons p t ih =>
      intro j
      unfold pooledClaimAux
      rw [hpoolUsed, ih (j + 1)]
  have hunpooled : ∀ (pools : List SharedPool),
      unpooledClaim cfg receipts1 pools = unpooledClaim cfg receipts2 pools := by
    intro pools
    unfold unpooledClaim
    rw [hclamped]
  have hspent :
      (cfg.items.map fun it => itemTotal cfg receipts1 it.id).sum
        = (cfg.items.map fun it => itemTotal cfg receipts2 it.id).sum := by
    congr 1
    apply List.map_congr_left
    intro it hmem
    exact hit it hmem
  unfold computeCategoryData
  split
  · rfl
  · simp only [pooledClaim]
    rw [hpooledAux, hunpooled, hspent]

/-- C7: an automatic category's stats are `claimable = limit`,
`remaining = 0`, `percent = 100`, for every receipt list; the receipts
argument has no effect on the result. -/
theorem C7_automatic_category_invariance (cfg : CategoryConfig)
    (receipts : List Receipt) (h : cfg.isAutomatic = true) :
    (computeCategoryData cfg receipts).claimable = cfg.limit
      ∧ (computeCategoryData cfg receipts).remaining = 0
      ∧ (computeCategoryData cfg receipts).percent = 100
      ∧ ∀ receipts2 : List Receipt,
          computeCategoryData cfg receipts = computeCategoryData cfg receipts2 := by
  refine ⟨?_, ?_, ?_, ?_⟩ <;> simp [computeCategoryData, h]

/-- Witness for C7: a concrete automatic category (the spousal relief
config) with a nonempty receipt list. -/
theorem C7_automatic_category_invariance_witness :
    (computeCategoryData
        ⟨"spouse", "Spouse / Alimony", 4000, [], none, true⟩
        [⟨"r1", "verified", 123, "", "spouse", "relief_spouse", 2025⟩]).claimable
      = (⟨"spouse", "Spouse / Alimony", 4000, [], none, true⟩ :
          CategoryConfig).limit
      ∧ (computeCategoryData
          ⟨"spouse", "Spouse / Alimony", 4000, [], none, true⟩
          [⟨"r1", "verified", 123, "", "spouse", "relief_spouse", 2025⟩]).remaining = 0
      ∧ (computeCategoryData
          ⟨"spouse", "Spouse / Alimony", 4000, [], none, true⟩
          [⟨"r1", "verified", 123, "", "spouse", "relief_spouse", 2025⟩]).percent = 100
      ∧ ∀ receipts2 : List Receipt,
          computeCategoryData
            ⟨"spouse", "Spouse / Alimony", 4000, [], none, true⟩
            [⟨"r1", "verified", 123, "", "spouse", "relief_spouse", 2025⟩]
            = computeCategoryData
                ⟨"spouse", "Spouse / Alimony", 4000, [], none, true⟩ receipts2 :=
  C7_automatic_category_invariance _ _ rfl

/-- C10: an automatic category reports `totalSpent = limit` (the
entitlement), not the raw sum of the receipts passed in. -/
theorem C10_automatic_totalSpent_is_limit (cfg : CategoryConfig)
    (receipts : List Receipt) (h : cfg.isAutomatic = true) :
    (computeCategoryData cfg receipts).totalSpent = cfg.limit
      ∧ ∀ receipts2 : List Receipt,
          (computeCategoryData cfg receipts).totalSpent
            = (computeCategoryData cfg receipts2).totalSpent := by
  constructor <;> simp [computeCategoryData, h]

/-- Witness for C10: the automatic spousal config with one 123-unit
receipt still reports `totalSpent = 4000`. -/
theorem C10_automatic_totalSpent_is_limit_witness :
    (computeCategoryData
        ⟨"spouse", "Spouse / Alimony", 4000, [], none, true⟩
        [⟨"r1", "verified", 123, "", "spouse", "relief_spouse", 2025⟩]).totalSpent
      = (⟨"spouse", "Spouse / Alimony", 4000, [], none, true⟩ :
          CategoryConfig).limit
      ∧ ∀ receipts2 : List Receipt,
          (computeCategoryData
            ⟨"spouse", "Spouse / Alimony", 4000, [], none, true⟩
            [⟨"r1", "verified", 123, "", "spouse", "relief_spouse", 2025⟩]).totalSpent
            = (computeCategoryData
                ⟨"spouse", "Spouse / Alimony", 4000, [], none, true⟩
                receipts2).totalSpent :=
  C10_automatic_totalSpent_is_limit _ _ rfl

/-- C8: a receipt with a negative amount, or with a category id other
than the config's, or with a `subCategory` that is not one of the
config's items, leaves every statistic of `computeCategoryData`
unchanged (the embedding is a total function, so no exception is
possible). -/
theorem C8_defensive_exclusions (cfg : CategoryConfig)
    (receipts : List Receipt) (r : Receipt)
    (h : r.amount < 0 ∨ r.category ≠ cfg.id ∨
      ∀ it ∈ cfg.items, it.id ≠ r.subCategory) :
    computeCategoryData cfg (receipts ++ [r]) = computeCategoryData cfg receipts := by
  apply computeCategoryData_congr
  intro it hmem
  rw [itemTotal_append_single]
  rcases h with h | h | h
  · rw [max_eq_left (le_of_lt h)]
    simp
  · rw [show (r.category == cfg.id) = false from beq_eq_false_iff_ne.mpr h]
    simp
  · rw [show (r.subCategory == it.id) = false from
      beq_eq_false_iff_ne.mpr (fun he => (h it hmem) he.symm)]
    simp

/-- Witness for C8: a verified medical receipt with a negative amount
does not change the medical category's stats. -/
theorem C8_defensive_exclusions_witness :
    computeCategoryData
        ⟨"medical", "Medical", 10000,
          [⟨"medical_vax", "Vaccination", "medical", some 1000⟩],
          some [⟨1000, ["medical_checkup", "medical_vax", "medical_dental"]⟩],
          false⟩
        ([] ++ [⟨"r2", "verified", -50, "", "medical", "medical_vax", 2025⟩])
      = computeCategoryData
          ⟨"medical", "Medical", 10000,
            [⟨"medical_vax", "Vaccination", "medical", some 1000⟩],
            some [⟨1000, ["medical_checkup", "medical_vax", "medical_dental"]⟩],
            false⟩
          [] :=
  C8_defensive_exclusions _ _ _ (Or.inl (by norm_num))

/-! ### Claim C1: clamp order of the category aggregation -/

theorem poolIndexOf_eq_none_iff (pools : List SharedPool) (itemId : String) :
    poolIndexOf pools itemId = none
      ↔ ∀ p ∈ pools, p.items.contains itemId = false := by
  induction pools with
  | nil => simp [poolIndexOf]
  | cons p ps ih =>
    rw [poolIndexOf]
    by_cases hc : p.items.contains itemId
    · rw [if_pos hc]
      constructor
      · intro h; cases h
      · intro h
        rw [h p (List.mem_cons_self p ps)] at hc
        cases hc
    · rw [if_neg hc]
      rw [Option.map_eq_none']
      constructor
      · intro h q hq
        rcases List.mem_cons.mp hq with rfl | hq2
        · exact Bool.eq_false_iff.mpr hc
        · exact (ih.mp h) q hq2
      · intro h
        exact ih.mpr fun q hq => h q (List.mem_cons_of_mem p hq)

theorem poolIndexOf_get (pools : List SharedPool) (itemId : String) :
    ∀ j, poolIndexOf pools itemId = some j →
      ∃ p, pools.get? j = some p ∧ p.items.contains itemId = true := by
  induction pools with
  | nil => intro j h; cases h
  | cons p ps ih =>
    intro j h
    by_cases hc : p.items.contains itemId
    · rw [poolIndexOf, if_pos hc] at h
      cases h
      exact ⟨p, rfl, hc⟩
    · rw [poolIndexOf, if_neg hc] at h
      rcases Option.map_eq_some'.mp h with ⟨k, hk, hkj⟩
      rcases ih k hk with ⟨q, hq, hqc⟩
      refine ⟨q, ?_, hqc⟩
      rw [← hkj]
      simpa using hq

theorem poolIndexOf_of_mem (itemId : String) :
    ∀ (pools : List SharedPool) (j : ℕ) (p : SharedPool),
      pools.get? j = some p → p.items.contains itemId = true →
      (pools.countP fun q => q.items.contains itemId) ≤ 1 →
      poolIndexOf pools itemId = some j := by
  intro pools
  induction pools with
  | nil => intro j p hget; cases hget
  | cons q qs ih =>
    intro j p hget hc hd
    cases j with
    | zero =>
      rw [List.get?_cons_zero, Option.some.injEq] at hget
      subst hget
      rw [poolIndexOf, if_pos hc]
    | succ k =>
      rw [List.get?_cons_succ] at hget
      by_cases hq : q.items.contains itemId
      · exfalso
        have hmem : p ∈ qs := List.get?_mem hget
        have h1 : 0 < qs.countP fun q2 => q2.items.contains itemId :=
          List.countP_pos_iff.mpr ⟨p, hmem, hc⟩
        simp only [List.countP_cons, hq, if_pos] at hd
        omega
      · have hd2 : (qs.countP fun q2 => q2.items.contains itemId) ≤ 1 := by
          simp only [List.countP_cons, hq] at hd
          omega
        rw [poolIndexOf, if_neg hq, ih k p hget hc hd2]
        rfl

/-- Under pool disjointness, the positional `used` sum of pool `j`
equals the sum over the members of the `j`-th pool. -/
theorem poolUsed_eq_memberSum (cfg : CategoryConfig) (receipts : List Receipt)
    (pools : List SharedPool) (j : ℕ) (p : SharedPool)
    (hget : pools.get? j = some p)
    (hd : ∀ it ∈ cfg.items,
      (pools.countP fun q => q.items.contains it.id) ≤ 1) :
    poolUsed cfg receipts pools j
      = ((cfg.items.filter fun it => p.items.contains it.id).map
          fun it => clampSub it (itemTotal cfg receipts it.id)).sum := by
  unfold poolUsed
  congr 1
  congr 1
  apply List.filter_congr
  intro it hmem
  by_cases hc : p.items.contains it.id
  · rw [hc, poolIndexOf_of_mem it.id pools j p hget hc (hd it hmem)]
    simp
  · rw [Bool.eq_false_iff.mpr hc]
    cases hpi : poolIndexOf pools it.id with
    | none => rfl
    | some k =>
      rcases poolIndexOf_get pools it.id k hpi with ⟨q, hq, hqc⟩
      have hkj : k ≠ j := by
        intro he
        subst he
        rw [hq, Option.some.injEq] at hget
        subst hget
        exact hc hqc
      simpa using hkj

theorem pooledClaim_eq_spec (cfg : CategoryConfig) (receipts : List Receipt)
    (pools : List SharedPool)
    (hd : ∀ it ∈ cfg.items,
      (pools.countP fun q => q.items.contains it.id) ≤ 1) :
    pooledClaim cfg receipts pools
      = (pools.map fun p =>
          min ((cfg.items.filter fun it => p.items.contains it.id).map
            fun it => clampSub it (itemTotal cfg receipts it.id)).sum
            p.limit).sum := by
  suffices h : ∀ (suf : List SharedPool) (j : ℕ), pools.drop j = suf →
      pooledClaimAux cfg receipts pools j suf
        = (suf.map fun p =>
            min ((cfg.items.filter fun it => p.items.contains it.id).map
              fun it => clampSub it (itemTotal cfg receipts it.id)).sum
              p.limit).sum by
    exact h pools 0 rfl
  intro suf
  induction suf with
  | nil => intro j _; rfl
  | cons p ps ih =>
    intro j hdrop
    have hget : pools.get? j = some p := by
      have h0 := List.get?_drop pools j 0
      rw [hdrop, Nat.add_zero] at h0
      exact h0.symm
    have hnext : pools.drop (j + 1) = ps := by
      rw [← List.tail_drop, hdrop]
      rfl
    rw [pooledClaimAux, poolUsed_eq_memberSum cfg receipts pools j p hget hd,
      ih (j + 1) hnext, List.map_cons, List.sum_cons]

theorem unpooledClaim_eq_spec (cfg : CategoryConfig) (receipts : List Receipt)
    (pools : List SharedPool) :
    unpooledClaim cfg receipts pools
      = ((cfg.items.filter fun it =>
            !(pools.any fun p => p.items.contains it.id)).map
          fun it => clampSub it (itemTotal cfg receipts it.id)).sum := by
  unfold unpooledClaim
  congr 1
  congr 1
  apply List.filter_congr
  intro it _
  cases hpi : poolIndexOf pools it.id with
  | none =>
    have hall := (poolIndexOf_eq_none_iff pools it.id).mp hpi
    have : (pools.any fun p => p.items.contains it.id) = false := by
      rw [List.any_eq_false]
      intro p hp
      rw [hall p hp]
      exact Bool.false_ne_true
    rw [this]
    rfl
  | some k =>
    rcases poolIndexOf_get pools it.id k hpi with ⟨q, hq, hqc⟩
    have : (pools.any fun p => p.items.contains it.id) = true :=
      List.any_eq_true.mpr ⟨q, List.get?_mem hq, hqc⟩
    rw [this]
    rfl

/-- Counterexample to C1 as stated: a non-automatic config whose two
shared pools both list the same item.  `computeCategoryData` assigns
the item to the first pool only (`findIndex`), yielding 50, while the
claim's formula counts the item's clamped total in every pool that
lists it, yielding 100. -/
theorem C1_clamp_order_counterexample :
    (⟨"cat", "Cat", 1000, [⟨"a", "A", "cat", none⟩],
        some [⟨100, ["a"]⟩, ⟨100, ["a"]⟩], false⟩ :
      CategoryConfig).isAutomatic = false
      ∧ (computeCategoryData
          ⟨"cat", "Cat", 1000, [⟨"a", "A", "cat", none⟩],
            some [⟨100, ["a"]⟩, ⟨100, ["a"]⟩], false⟩
          [⟨"r1", "verified", 50, "", "cat", "a", 2025⟩]).claimable = 50
      ∧ specClaimable
          ⟨"cat", "Cat", 1000, [⟨"a", "A", "cat", none⟩],
            some [⟨100, ["a"]⟩, ⟨100, ["a"]⟩], false⟩
          [⟨"r1", "verified", 50, "", "cat", "a", 2025⟩] = 100
      ∧ (computeCategoryData
          ⟨"cat", "Cat", 1000, [⟨"a", "A", "cat", none⟩],
            some [⟨100, ["a"]⟩, ⟨100, ["a"]⟩], false⟩
          [⟨"r1", "verified", 50, "", "cat", "a", 2025⟩]).claimable
        ≠ specClaimable
            ⟨"cat", "Cat", 1000, [⟨"a", "A", "cat", none⟩],
              some [⟨100, ["a"]⟩, ⟨100, ["a"]⟩], false⟩
            [⟨"r1", "verified", 50, "", "cat", "a", 2025⟩] := by
  have hcode : (computeCategoryData
      ⟨"cat", "Cat", 1000, [⟨"a", "A", "cat", none⟩],
        some [⟨100, ["a"]⟩, ⟨100, ["a"]⟩], false⟩
      [⟨"r1", "verified", 50, "", "cat", "a", 2025⟩]).claimable = 50 := by
    have hit : itemTotal
        ⟨"cat", "Cat", 1000, [⟨"a", "A", "cat", none⟩],
          some [⟨100, ["a"]⟩, ⟨100, ["a"]⟩], false⟩
        [⟨"r1", "verified", 50, "", "cat", "a", 2025⟩] "a" = 50 := by
      norm_num [itemTotal, List.filter, List.foldl]
    have h01 : ((0 : ℕ) == 1) = false := rfl
    norm_num [computeCategoryData, unpooledClaim, pooledClaim, pooledClaimAux,
      poolUsed, clampSub, poolIndexOf, List.filter, hit, h01]
  have hspec : specClaimable
      ⟨"cat", "Cat", 1000, [⟨"a", "A", "cat", none⟩],
        some [⟨100, ["a"]⟩, ⟨100, ["a"]⟩], false⟩
      [⟨"r1", "verified", 50, "", "cat", "a", 2025⟩] = 100 := by
    have hit : itemTotal
        ⟨"cat", "Cat", 1000, [⟨"a", "A", "cat", none⟩],
          some [⟨100, ["a"]⟩, ⟨100, ["a"]⟩], false⟩
        [⟨"r1", "verified", 50, "", "cat", "a", 2025⟩] "a" = 50 := by
      norm_num [itemTotal, List.filter, List.foldl]
    norm_num [specClaimable, clampSub, List.filter, hit]
  refine ⟨rfl, hcode, hspec, ?_⟩
  rw [hcode, hspec]
  norm_num

/-- C1 (amended): for a non-automatic config in which every item
belongs to at most one shared pool, the claimable amount is
`min(limit, S)` with `S` built by the spec's clamp order — item
sub-limit first, then pool limit over the pool's members, then the
category limit, pool members never re-clamped after the pool clamp.
The amendment restricts the claim to configs without overlapping pools
(the code assigns an item to its first matching pool; the claim's
per-pool sum counts a shared item once per pool). -/
theorem C1_clamp_order_amended (cfg : CategoryConfig)
    (receipts : List Receipt) (hAuto : cfg.isAutomatic = false)
    (hd : ∀ it ∈ cfg.items,
      ((cfg.sharedPools.getD []).countP fun q => q.items.contains it.id) ≤ 1) :
    (computeCategoryData cfg receipts).claimable = specClaimable cfg receipts := by
  unfold computeCategoryData specClaimable
  rw [hAuto]
  simp only [Bool.false_eq_true, if_false]
  rw [pooledClaim_eq_spec cfg receipts _ hd, unpooledClaim_eq_spec]
  exact (min_comm _ _).trans (congrArg (Min.min cfg.limit) (add_comm _ _))

/-- Witness for C1 (amended): the end-to-end medical scenario of the
spec — one verified vaccination receipt of 1200, `subLimit` 1000,
inside the 1000-pool; claimable is 1000 on both sides. -/
theorem C1_clamp_order_amended_witness :
    (computeCategoryData
        ⟨"medical", "Medical", 10000,
          [⟨"medical_vax", "Vaccination", "medical", some 1000⟩],
          some [⟨1000, ["medical_checkup", "medical_vax", "medical_dental"]⟩],
          false⟩
        [⟨"r1", "verified", 1200, "", "medical", "medical_vax", 2025⟩]).claimable
      = specClaimable
          ⟨"medical", "Medical", 10000,
            [⟨"medical_vax", "Vaccination", "medical", some 1000⟩],
            some [⟨1000, ["medical_checkup", "medical_vax", "medical_dental"]⟩],
            false⟩
          [⟨"r1", "verified", 1200, "", "medical", "medical_vax", 2025⟩] :=
  C1_clamp_order_amended _ _ rfl (by decide)

/-! ### Category-set builder (`getYearConfig`) -/

/-- `UserProfile` from `types.ts`; `status` is the marital-status
string (`"single" | "married"`), numeric child counts are rationals
(JavaScript numbers), and the optional `alimony` flag defaults to
`false` (`undefined` is falsy). -/
structure UserProfile where
  displayName : String
  status : String
  spouseWorking : Bool
  spouseDisabled : Bool
  selfDisabled : Bool
  kidsUnder18 : ℚ
  kidsPreU : ℚ
  kidsDegree : ℚ
  kidsDisabled : ℚ
  kidsDisabledDiploma : ℚ
  zakat : ℚ
  donations : ℚ
  alimony : Bool := false
deriving DecidableEq

namespace DEDUCTIBLES

def lifestyle_books : DeductibleItem := ⟨"lifestyle_books", "Books / Journals", "lifestyle", none⟩
def lifestyle_tech : DeductibleItem := ⟨"lifestyle_tech", "PC / Smartphone / Tablet", "lifestyle", none⟩
def lifestyle_internet : DeductibleItem := ⟨"lifestyle_internet", "Internet Bill", "lifestyle", none⟩
def lifestyle_gym_legacy : DeductibleItem := ⟨"lifestyle_gym", "Gym / Sports Equip", "lifestyle", none⟩
def sports_equip : DeductibleItem := ⟨"sports_equip", "Sports Equipment", "sports", none⟩
def sports_facility : DeductibleItem := ⟨"sports_facility", "Facility Rental", "sports", none⟩
def sports_training : DeductibleItem := ⟨"sports_training", "Training / Gym", "sports", none⟩
def sports_extra_legacy : DeductibleItem := ⟨"sports_extra_legacy", "Extra Sports", "sports_extra", none⟩
def medical_serious : DeductibleItem := ⟨"medical_serious", "Serious Disease", "medical", none⟩
def medical_fertility : DeductibleItem := ⟨"medical_fertility", "Fertility Treatment", "medical", none⟩
def medical_vax : DeductibleItem := ⟨"medical_vax", "Vaccination", "medical", some 1000⟩
def medical_checkup : DeductibleItem := ⟨"medical_checkup", "Full Checkup / Mental", "medical", some 1000⟩
def medical_dental : DeductibleItem := ⟨"medical_dental", "Dental Exam/Treatment", "medical", some 1000⟩
def medical_child_dev : DeductibleItem := ⟨"medical_child_dev", "Child Learning Rehab", "medical", some 4000⟩
def parents_treatment : DeductibleItem := ⟨"parents_treatment", "Medical (Parents)", "medical_parents", none⟩
def education_self : DeductibleItem := ⟨"education_self", "Education Fees (Self)", "education_self", none⟩
def prs_annuity : DeductibleItem := ⟨"prs_annuity", "PRS / Deferred Annuity", "prs", none⟩
def insurance_ed_med : DeductibleItem := ⟨"insurance_ed_med", "Education/Medical Insurance", "insurance_ed_med", none⟩
def socso : DeductibleItem := ⟨"socso", "SOCSO / EIS", "socso", none⟩
def child_sspn : DeductibleItem := ⟨"child_sspn", "SSPN Net Deposit", "sspn", none⟩
def child_care : DeductibleItem := ⟨"child_care", "Childcare (Taska)", "childcare", none⟩
def child_breastfeeding : DeductibleItem := ⟨"child_breastfeeding", "Breastfeeding Equip", "breastfeeding", none⟩
def relief_spouse : DeductibleItem := ⟨"relief_spouse", "Spouse (No Income)", "spouse", none⟩
def relief_alimony : DeductibleItem := ⟨"relief_alimony", "Alimony", "spouse", none⟩
def relief_disabled_self : DeductibleItem := ⟨"relief_disabled_self", "Disabled Individual", "disabled_self", none⟩
def relief_disabled_spouse : DeductibleItem := ⟨"relief_disabled_spouse", "Disabled Spouse", "disabled_spouse", none⟩
def relief_child_u18 : DeductibleItem := ⟨"relief_child_u18", "Child (<18)", "child_relief", none⟩
def relief_child_preu : DeductibleItem := ⟨"relief_child_preu", "Child (18+ Pre-U)", "child_relief", none⟩
def relief_child_high : DeductibleItem := ⟨"relief_child_high", "Child (18+ Degree)", "child_relief", none⟩
def relief_disabled_equip : DeductibleItem := ⟨"relief_disabled_equip", "Disabled Support Equip", "disabled_equip", none⟩
def ev_install : DeductibleItem := ⟨"ev_install", "EV Charger", "ev", none⟩
def tech_special_item : DeductibleItem := ⟨"tech_special_item", "Tech (Special Relief)", "tech_special", none⟩
def tourism : DeductibleItem := ⟨"tourism", "Domestic Tourism", "tourism", none⟩
def life_insurance : DeductibleItem := ⟨"life_insurance", "Life Ins / EPF", "life_insurance", none⟩

end DEDUCTIBLES

/-- The child-relief limit accumulation of `getYearConfig`. -/
def childLimit (profile : UserProfile) : ℚ :=
  (if 0 < profile.kidsUnder18 then profile.kidsUnder18 * 2000 else 0) +
  (if 0 < profile.kidsPreU then profile.kidsPreU * 2000 else 0) +
  (if 0 < profile.kidsDegree then profile.kidsDegree * 8000 else 0) +
  (if 0 < profile.kidsDisabled then profile.kidsDisabled * 6000 else 0) +
  (if 0 < profile.kidsDisabledDiploma then profile.kidsDisabledDiploma * 14000 else 0)

/-- `getYearConfig` from `taxEngine.ts`.  The sequence of `push` calls
is rendered as a concatenation of conditional singleton lists, in
source order. -/
def getYearConfig (year : ℤ) (profile : UserProfile) : List CategoryConfig :=
  (if profile.status == "married" && (!profile.spouseWorking || profile.alimony) then
    [{ id := "spouse", title := "Spouse / Alimony", limit := 4000,
       items := [DEDUCTIBLES.relief_spouse, DEDUCTIBLES.relief_alimony],
       isAutomatic := true }]
  else []) ++
  (if profile.selfDisabled then
    [{ id := "disabled_self", title := "Disabled Individual", limit := 6000,
       items := [DEDUCTIBLES.relief_disabled_self], isAutomatic := true }]
  else []) ++
  (if profile.status == "married" && profile.spouseDisabled then
    [{ id := "disabled_spouse", title := "Disabled Spouse", limit := 5000,
       items := [DEDUCTIBLES.relief_disabled_spouse], isAutomatic := true }]
  else []) ++
  (if 0 < childLimit profile then
    [{ id := "child_relief", title := "Child Relief", limit := childLimit profile,
       items := [DEDUCTIBLES.relief_child_u18], isAutomatic := true }]
  else []) ++
  [{ id := "lifestyle", title := "Lifestyle", limit := 2500,
     items :=
       if year < 2024 then
         [DEDUCTIBLES.lifestyle_books, DEDUCTIBLES.lifestyle_tech,
          DEDUCTIBLES.lifestyle_internet, DEDUCTIBLES.lifestyle_gym_legacy]
       else
         [DEDUCTIBLES.lifestyle_books, DEDUCTIBLES.lifestyle_tech,
          DEDUCTIBLES.lifestyle_internet] }] ++
  (if 2024 ≤ year then
    [{ id := "sports", title := "Sports Equipment & Gym", limit := 1000,
       items := [DEDUCTIBLES.sports_equip, DEDUCTIBLES.sports_facility,
         DEDUCTIBLES.sports_training] }]
  else if 2021 ≤ year then
    [{ id := "sports_extra", title := "Additional Sports Relief", limit := 500,
       items := [DEDUCTIBLES.sports_extra_legacy] }]
  else []) ++
  [{ id := "medical", title := "Medical (Self, Spouse & Child)",
     limit := if 2023 ≤ year then 10000 else 8000,
     items :=
       [DEDUCTIBLES.medical_serious, DEDUCTIBLES.medical_fertility,
        DEDUCTIBLES.medical_vax, DEDUCTIBLES.medical_checkup] ++
       (if 2024 ≤ year then [DEDUCTIBLES.medical_dental] else []) ++
       (if 2023 ≤ year then [DEDUCTIBLES.medical_child_dev] else []),
     sharedPools :=
       some [⟨1000, ["medical_checkup", "medical_vax", "medical_dental"]⟩] }] ++
  [{ id := "medical_parents", title := "Medical (Parents)", limit := 8000,
     items := [DEDUCTIBLES.parents_treatment] }] ++
  [{ id := "education_self", title := "Education Fees (Self)", limit := 7000,
     items := [DEDUCTIBLES.education_self] }] ++
  [{ id := "insurance_ed_med", title := "Education/Medical Ins.", limit := 3000,
     items := [DEDUCTIBLES.insurance_ed_med] }] ++
  [{ id := "prs", title := "PRS / Annuity", limit := 3000,
     items := [DEDUCTIBLES.prs_annuity] }] ++
  [{ id := "sspn", title := "SSPN Savings", limit := 8000,
     items := [DEDUCTIBLES.child_sspn] }] ++
  (if 0 < childLimit profile ∨ 0 < profile.kidsDisabled then
    [{ id := "childcare", title := "Childcare Fees", limit := 3000,
       items := [DEDUCTIBLES.child_care] }]
  else []) ++
  [{ id := "breastfeeding", title := "Breastfeeding Equipment", limit := 1000,
     items := [DEDUCTIBLES.child_breastfeeding] }] ++
  (if profile.selfDisabled ∨
      (profile.status == "married" && profile.spouseDisabled) = true ∨
      0 < profile.kidsDisabled then
    [{ id := "disabled_equip", title := "Disabled Support Equip.", limit := 6000,
       items := [DEDUCTIBLES.relief_disabled_equip] }]
  else []) ++
  (if 2022 ≤ year then
    [{ id := "ev", title := "EV Charging Facility", limit := 2500,
       items := [DEDUCTIBLES.ev_install] }]
  else []) ++
  [{ id := "socso", title := "SOCSO / EIS", limit := 350,
     items := [DEDUCTIBLES.socso] }] ++
  [{ id := "life_insurance", title := "Life Insurance / EPF", limit := 7000,
     items := [DEDUCTIBLES.life_insurance] }]

theorem any_if_single {c : Prop} [Decidable c] (cfg : CategoryConfig)
    (p : CategoryConfig → Bool) :
    (if c then [cfg] else ([] : List CategoryConfig)).any p
      = (decide c && p cfg) := by
  split
  · rename_i h; simp [h]
  · rename_i h; simp [h]

theorem any_ite {c : Prop} [Decidable c] (l1 l2 : List CategoryConfig)
    (p : CategoryConfig → Bool) :
    (if c then l1 else l2).any p = if c then l1.any p else l2.any p :=
  apply_ite (fun l => List.any l p) c l1 l2

/-- The spousal-relief category is in the built list exactly when the
first `push` of `getYearConfig` fires. -/
theorem getYearConfig_any_spouse (year : ℤ) (profile : UserProfile) :
    ((getYearConfig year profile).any fun c => c.id == "spouse")
      = (profile.status == "married" &&
          (!profile.spouseWorking || profile.alimony)) := by
  unfold getYearConfig
  simp [List.any_append, any_ite, any_if_single, DEDUCTIBLES.lifestyle_books]
  by_cases h : profile.status = "married" <;> simp [h]

/-- Counterexample to C5 as stated: a married profile whose spouse *is*
working but with the alimony flag set still gets the spousal-relief
category ("Spouse / Alimony"), because the source condition is
`married && (!spouseWorking || alimony)`, not
`married && !spouseWorking`. -/
theorem C5_spousal_relief_counterexample :
    ((getYearConfig 2025
        { displayName := "", status := "married", spouseWorking := true,
          spouseDisabled := false, selfDisabled := false, kidsUnder18 := 0,
          kidsPreU := 0, kidsDegree := 0, kidsDisabled := 0,
          kidsDisabledDiploma := 0, zakat := 0, donations := 0,
          alimony := true }).any fun c => c.id == "spouse") = true
      ∧ ¬ (({ displayName := "", status := "married", spouseWorking := true,
              spouseDisabled := false, selfDisabled := false, kidsUnder18 := 0,
              kidsPreU := 0, kidsDegree := 0, kidsDisabled := 0,
              kidsDisabledDiploma := 0, zakat := 0, donations := 0,
              alimony := true } : UserProfile).status = "married"
            ∧ ({ displayName := "", status := "married", spouseWorking := true,
                 spouseDisabled := false, selfDisabled := false, kidsUnder18 := 0,
                 kidsPreU := 0, kidsDegree := 0, kidsDisabled := 0,
                 kidsDisabledDiploma := 0, zakat := 0, donations := 0,
                 alimony := true } : UserProfile).spouseWorking = false) := by
  constructor
  · rw [getYearConfig_any_spouse]
    rfl
  · simp

/-- C5 (amended): the category list built by `getYearConfig` contains
the spousal-relief category if and only if the profile is married and
either the spouse is not working or the alimony flag is set (the
alimony disjunct is what the counterexample forces). -/
theorem C5_spousal_relief_amended (year : ℤ) (profile : UserProfile) :
    ((getYearConfig year profile).any fun c => c.id == "spouse") = true
      ↔ profile.status = "married" ∧
          (profile.spouseWorking = false ∨ profile.alimony = true) := by
  rw [getYearConfig_any_spouse]
  simp [Bool.and_eq_true, Bool.or_eq_true, Bool.not_eq_true']

/-! ### Dashboard pipeline (`DashboardScreen.tsx`) -/

/-- The `yearReceipts` filter of `DashboardScreen`: verified receipts
whose date's calendar year is the selected assessment year. -/
def yearReceipts (receipts : List Receipt) (selectedYear : ℤ) : List Receipt :=
  receipts.filter fun r => r.status == "verified" && r.dateYear == selectedYear

/-- The dashboard `stats` memo: per-category stats over the filtered
receipts and the total claimable sum. -/
def dashboardStats (selectedYear : ℤ) (profile : UserProfile)
    (receipts : List Receipt) : ℚ × List (String × CategoryStats) :=
  let active := getYearConfig selectedYear profile
  let yr := yearReceipts receipts selectedYear
  ((active.map fun cat => (computeCategoryData cat yr).claimable).sum,
   active.map fun cat => (cat.id, computeCategoryData cat yr))

/-- C6: appending a receipt that is not verified, or whose date's year
differs from the selected assessment year, changes neither any
category's stats nor the total claimable (and symmetrically, removing
such a receipt changes nothing). -/
theorem C6_nonqualifying_receipts_ignored (selectedYear : ℤ)
    (profile : UserProfile) (receipts : List Receipt) (r : Receipt)
    (h : r.status ≠ "verified" ∨ r.dateYear ≠ selectedYear) :
    dashboardStats selectedYear profile (receipts ++ [r])
      = dashboardStats selectedYear profile receipts := by
  have hp : (r.status == "verified" && r.dateYear == selectedYear) = false := by
    rcases h with h | h
    · rw [beq_eq_false_iff_ne.mpr h, Bool.false_and]
    · rw [beq_eq_false_iff_ne.mpr h, Bool.and_false]
  have hyr : yearReceipts (receipts ++ [r]) selectedYear
      = yearReceipts receipts selectedYear := by
    unfold yearReceipts
    rw [List.filter_append, List.filter_cons, if_neg (by simp [hp]),
      List.filter_nil, List.append_nil]
  unfold dashboardStats
  rw [hyr]

/-- Witness for C6: a pending (not verified) receipt appended for a
single, childless profile in year 2025. -/
theorem C6_nonqualifying_receipts_ignored_witness :
    dashboardStats 2025
        { displayName := "", status := "single", spouseWorking := false,
          spouseDisabled := false, selfDisabled := false, kidsUnder18 := 0,
          kidsPreU := 0, kidsDegree := 0, kidsDisabled := 0,
          kidsDisabledDiploma := 0, zakat := 0, donations := 0 }
        ([] ++ [⟨"r9", "pending", 400, "", "lifestyle", "lifestyle_books", 2025⟩])
      = dashboardStats 2025
          { displayName := "", status := "single", spouseWorking := false,
            spouseDisabled := false, selfDisabled := false, kidsUnder18 := 0,
            kidsPreU := 0, kidsDegree := 0, kidsDisabled := 0,
            kidsDisabledDiploma := 0, zakat := 0, donations := 0 }
          [] :=
  C6_nonqualifying_receipts_ignored 2025 _ [] _ (Or.inl (by decide))

/-- The income-to-tax pipeline of `DashboardScreen` (lines 68–90):
incomes clamped non-negative, donation deduction capped at 10% of
aggregate income, personal relief 9000, chargeable income clamped at
0.  Written as a function of the raw income fields, the donation
amount, and the total claimable relief. -/
def chargeableIncomeOf (gross other dividends donations totalClaimable : ℚ) : ℚ :=
  let grossIncome := max 0 gross
  let otherIncome := max 0 other
  let dividendIncome := max 0 dividends
  let totalAggIncome := grossIncome + otherIncome + dividendIncome
  let donationDeduction := min (max 0 donations) (totalAggIncome * (1/10))
  let totalIncome := totalAggIncome - donationDeduction
  max 0 (totalIncome - 9000 - totalClaimable)

/-- `taxCalculated` of `DashboardScreen`: the bracket tax on the
chargeable income plus the Budget-2025 dividend surcharge
(`if (selectedYear >= 2025 && dividendIncome > 100000)
  taxCalculated += (dividendIncome - 100000) * 0.02`). -/
def dashboardTaxCalculated (selectedYear : ℤ)
    (gross other dividends donations totalClaimable : ℚ) : ℚ :=
  let chargeableIncome :=
    chargeableIncomeOf gross other dividends donations totalClaimable
  let base := calculateProgressiveTax chargeableIncome selectedYear
  if 2025 ≤ selectedYear ∧ 100000 < max 0 dividends then
    base + (max 0 dividends - 100000) * (2/100)
  else base

/-- C3: for assessment year at least the threshold year 2025 and
(clamped) dividend income over 100000, the dashboard's total tax is the
bracket tax plus a flat 2% of the excess only; below the threshold year
or at dividend income at most 100000 no surcharge is applied. -/
theorem C3_dividend_surcharge (selectedYear : ℤ)
    (gross other dividends donations totalClaimable : ℚ) :
    (2025 ≤ selectedYear → 100000 < max 0 dividends →
      dashboardTaxCalculated selectedYear gross other dividends donations
          totalClaimable
        = calculateProgressiveTax
            (chargeableIncomeOf gross other dividends donations totalClaimable)
            selectedYear
          + (max 0 dividends - 100000) * (2/100))
      ∧ (selectedYear < 2025 ∨ max 0 dividends ≤ 100000 →
          dashboardTaxCalculated selectedYear gross other dividends donations
              totalClaimable
            = calculateProgressiveTax
                (chargeableIncomeOf gross other dividends donations
                  totalClaimable)
                selectedYear) := by
  constructor
  · intro h1 h2
    unfold dashboardTaxCalculated
    rw [if_pos ⟨h1, h2⟩]
  · intro h
    unfold dashboardTaxCalculated
    rw [if_neg ?hne]
    case hne =>
      rintro ⟨ha, hb⟩
      rcases h with h | h
      · omega
      · exact absurd hb (not_lt.mpr h)

/-- Witness for C3: dividends 150000 in year 2025 add a 1000 surcharge;
the same dividends in year 2024 add nothing. -/
theorem C3_dividend_surcharge_witness :
    dashboardTaxCalculated 2025 0 0 150000 0 0
        = calculateProgressiveTax (chargeableIncomeOf 0 0 150000 0 0) 2025
          + (max 0 150000 - 100000) * (2/100)
      ∧ dashboardTaxCalculated 2024 0 0 150000 0 0
          = calculateProgressiveTax (chargeableIncomeOf 0 0 150000 0 0) 2024 :=
  ⟨(C3_dividend_surcharge 2025 0 0 150000 0 0).1 (by norm_num)
      (by rw [max_eq_right (by norm_num : (0:ℚ) ≤ 150000)]; norm_num),
   (C3_dividend_surcharge 2024 0 0 150000 0 0).2 (Or.inl (by norm_num))⟩

/-! ### Year configuration resolver (`yearConfigs.ts`) -/

/-- The `categoryLimits` record of `YearTaxConfig`. -/
structure CategoryLimits where
  lifestyle : ℚ
  sports : ℚ
  medical : ℚ
  medicalParents : ℚ
  educationSelf : ℚ
  insuranceEdMed : ℚ
  prs : ℚ
  sspn : ℚ
  childcare : ℚ
  breastfeeding : ℚ
  disabledEquip : ℚ
  ev : ℚ
  socso : ℚ
  lifeInsurance : ℚ
  spouse : ℚ
  disabledSelf : ℚ
  disabledSpouse : ℚ
  childU18 : ℚ
  childPreU : ℚ
  childDegree : ℚ
  childDisabled : ℚ
  childDisabledDiploma : ℚ
deriving DecidableEq

/-- The `features` record of `YearTaxConfig`. -/
structure YearFeatures where
  hasSportsSeparate : Bool
  hasDental : Bool
  hasChildDev : Bool
  hasEvCharging : Bool
  medicalSharedPoolLimit : ℚ
deriving DecidableEq

structure YearTaxConfig where
  year : ℤ
  filingDeadline : String
  taxBrackets : List TaxBracket
  categoryLimits : CategoryLimits
  features : YearFeatures
deriving DecidableEq

/-- Category limits shared by years 2024 and 2025. -/
def limits2024 : CategoryLimits :=
  { lifestyle := 2500, sports := 1000, medical := 10000, medicalParents := 8000,
    educationSelf := 7000, insuranceEdMed := 3000, prs := 3000, sspn := 8000,
    childcare := 3000, breastfeeding := 1000, disabledEquip := 6000, ev := 2500,
    socso := 350, lifeInsurance := 7000, spouse := 4000, disabledSelf := 6000,
    disabledSpouse := 5000, childU18 := 2000, childPreU := 2000,
    childDegree := 8000, childDisabled := 6000, childDisabledDiploma := 14000 }

/-- The bracket tables in `yearConfigs.ts` repeat the
`TAX_BRACKETS` literals of `taxEngine.ts` verbatim; the embedding
references the single definition. -/
def config2025 : YearTaxConfig :=
  { year := 2025, filingDeadline := "2026-05-15",
    taxBrackets := TAX_BRACKETS_post_2023,
    categoryLimits := limits2024,
    features := { hasSportsSeparate := true, hasDental := true,
                  hasChildDev := true, hasEvCharging := true,
                  medicalSharedPoolLimit := 1000 } }

def config2024 : YearTaxConfig :=
  { year := 2024, filingDeadline := "2025-05-15",
    taxBrackets := TAX_BRACKETS_post_2023,
    categoryLimits := limits2024,
    features := { hasSportsSeparate := true, hasDental := true,
                  hasChildDev := true, hasEvCharging := true,
                  medicalSharedPoolLimit := 1000 } }

def config2023 : YearTaxConfig :=
  { year := 2023, filingDeadline := "2024-05-15",
    taxBrackets := TAX_BRACKETS_post_2023,
    categoryLimits := { limits2024 with sports := 0 },
    features := { hasSportsSeparate := false, hasDental := false,
                  hasChildDev := true, hasEvCharging := true,
                  medicalSharedPoolLimit := 1000 } }

def config2022 : YearTaxConfig :=
  { year := 2022, filingDeadline := "2023-05-15",
    taxBrackets := TAX_BRACKETS_pre_2023,
    categoryLimits := { limits2024 with sports := 0, medical := 8000 },
    features := { hasSportsSeparate := false, hasDental := false,
                  hasChildDev := false, hasEvCharging := true,
                  medicalSharedPoolLimit := 1000 } }

def config2021 : YearTaxConfig :=
  { year := 2021, filingDeadline := "2022-05-15",
    taxBrackets := TAX_BRACKETS_pre_2023,
    categoryLimits := { limits2024 with sports := 500, medical := 8000, ev := 0 },
    features := { hasSportsSeparate := false, hasDental := false,
                  hasChildDev := false, hasEvCharging := false,
                  medicalSharedPoolLimit := 1000 } }

def config2020 : YearTaxConfig :=
  { year := 2020, filingDeadline := "2021-05-15",
    taxBrackets := TAX_BRACKETS_pre_2023,
    categoryLimits := { limits2024 with sports := 0, medical := 8000, ev := 0 },
    features := { hasSportsSeparate := false, hasDental := false,
                  hasChildDev := false, hasEvCharging := false,
                  medicalSharedPoolLimit := 1000 } }

def config2019 : YearTaxConfig :=
  { year := 2019, filingDeadline := "2020-05-15",
    taxBrackets := TAX_BRACKETS_pre_2023,
    categoryLimits := { limits2024 with sports := 0, medical := 8000, ev := 0 },
    features := { hasSportsSeparate := false, hasDental := false,
                  hasChildDev := false, hasEvCharging := false,
                  medicalSharedPoolLimit := 1000 } }

/-- The `YEAR_CONFIGS` table, as a partial lookup by year. -/
def YEAR_CONFIGS (year : ℤ) : Option YearTaxConfig :=
  if year = 2025 then some config2025
  else if year = 2024 then some config2024
  else if year = 2023 then some config2023
  else if year = 2022 then some config2022
  else if year = 2021 then some config2021
  else if year = 2020 then some config2020
  else if year = 2019 then some config2019
  else none

/-- Result of `getYearTaxConfig`; `warned` records whether the
`console.warn` fallback branch ran. -/
structure ConfigLookup where
  config : YearTaxConfig
  warned : Bool
deriving DecidableEq

/-- `getYearTaxConfig` from `yearConfigs.ts`.  The configured years
sorted descending are `[2025, ..., 2019]`, so `years[0] = 2025` and
`years[years.length - 1] = 2019`, and
`fallbackYear = year > years[0] ? years[0] : years[years.length - 1]`;
both fallback lookups hit the table, yielding the configs inlined
below. -/
def getYearTaxConfig (year : ℤ) : ConfigLookup :=
  match YEAR_CONFIGS year with
  | some c => ⟨c, false⟩
  | none => ⟨if 2025 < year then config2025 else config2019, true⟩

/-- C4: `getYearTaxConfig` returns the exact static config for a
configured year with no warning; for a year newer than the newest
configured year (2025) it returns the newest config, for one older
than the oldest (2019) the oldest config, warning in exactly the
fallback cases; it is total and deterministic. -/
theorem C4_year_config_fallback (year : ℤ) :
    (∀ c, YEAR_CONFIGS year = some c →
        getYearTaxConfig year = ⟨c, false⟩)
      ∧ (2025 < year → getYearTaxConfig year = ⟨config2025, true⟩)
      ∧ (year < 2019 → getYearTaxConfig year = ⟨config2019, true⟩)
      ∧ ((getYearTaxConfig year).warned = true ↔ YEAR_CONFIGS year = none)
      ∧ getYearTaxConfig year = getYearTaxConfig year := by
  refine ⟨?_, ?_, ?_, ?_, rfl⟩
  · intro c hc
    unfold getYearTaxConfig
    rw [hc]
  · intro h
    have hnone : YEAR_CONFIGS year = none := by
      unfold YEAR_CONFIGS
      split_ifs <;> first | rfl | omega
    unfold getYearTaxConfig
    rw [hnone, if_pos h]
  · intro h
    have hnone : YEAR_CONFIGS year = none := by
      unfold YEAR_CONFIGS
      split_ifs <;> first | rfl | omega
    unfold getYearTaxConfig
    rw [hnone, if_neg (by omega : ¬ (2025 < year))]
  · cases hY : YEAR_CONFIGS year with
    | some c =>
      unfold getYearTaxConfig
      rw [hY]
      simp [hY]
    | none =>
      unfold getYearTaxConfig
      rw [hY]
      simp [hY]

/-- Witness for C4: an exact match (2023), a too-new year (9999 maps to
the 2025 config), and a too-old year (1900 maps to the 2019 config). -/
theorem C4_year_config_fallback_witness :
    getYearTaxConfig 2023 = ⟨config2023, false⟩
      ∧ getYearTaxConfig 9999 = ⟨config2025, true⟩
      ∧ getYearTaxConfig 1900 = ⟨config2019, true⟩ :=
  ⟨(C4_year_config_fallback 2023).1 config2023 rfl,
   (C4_year_config_fallback 9999).2.1 (by norm_num),
   (C4_year_config_fallback 1900).2.2.1 (by norm_num)⟩

end CukaiPal
